import Mathlib

/-!
Verification of the BMP180 i2c driver (`drivers/i2c/bmp180_driver.go`).

The driver is embedded shallowly:
* Go fixed-width integers are modelled as `Int` together with explicit
  wrapping functions (`toInt32`, `toUInt32`, `toInt16`, `toUInt16`);
  every arithmetic operation of the Go source that can wrap is guarded by
  the corresponding wrap, exactly where the Go typing rules place it.
* Go's arithmetic right shift on signed values is `asr` (floor division by
  a power of two); Go's truncating signed division is `Int.tdiv`; unsigned
  division and logical right shift are Euclidean division of nonnegative
  values.
* The i2c transport is external: each driver operation takes the scripted
  outcomes of its bus transactions as parameters and returns the trace of
  bus events it performed together with its result.
-/

/-- Wrap an integer into the signed 32-bit range, two's complement
(the value of a Go `int32` holding the low 32 bits of `x`). -/
def toInt32 (x : Int) : Int := (x + 2147483648) % 4294967296 - 2147483648

/-- Wrap an integer into the unsigned 32-bit range
(the value of a Go `uint32` holding the low 32 bits of `x`). -/
def toUInt32 (x : Int) : Int := x % 4294967296

/-- Wrap an integer into the signed 16-bit range, two's complement. -/
def toInt16 (x : Int) : Int := (x + 32768) % 65536 - 32768

/-- Wrap an integer into the unsigned 16-bit range. -/
def toUInt16 (x : Int) : Int := x % 65536

/-- Arithmetic (sign extending) right shift of a signed value: floor
division by `2 ^ n`.  Go's `>>` on signed integers. -/
def asr (x : Int) (n : Nat) : Int := x / 2 ^ n

/-- Go's `<<` on `int32`: multiply by `2 ^ n` and wrap into 32 bits. -/
def shl32 (x : Int) (n : Nat) : Int := toInt32 (x * 2 ^ n)

/-- The eleven factory calibration constants of the BMP180
(struct `calibrationCoefficients` of the source; `ac1..ac3, b1, b2, mb,
mc, md` are `int16`, `ac4..ac6` are `uint16`). -/
structure CalibrationCoefficients where
  ac1 : Int
  ac2 : Int
  ac3 : Int
  ac4 : Int
  ac5 : Int
  ac6 : Int
  b1 : Int
  b2 : Int
  mb : Int
  mc : Int
  md : Int
deriving DecidableEq, Repr

/-- The fields of a calibration record lie in the ranges of their Go
types (`int16` for `ac1..ac3, b1, b2, mb, mc, md`; `uint16` for
`ac4..ac6`). -/
def calibInBounds (c : CalibrationCoefficients) : Prop :=
  -32768 ≤ c.ac1 ∧ c.ac1 < 32768 ∧
  -32768 ≤ c.ac2 ∧ c.ac2 < 32768 ∧
  -32768 ≤ c.ac3 ∧ c.ac3 < 32768 ∧
  0 ≤ c.ac4 ∧ c.ac4 < 65536 ∧
  0 ≤ c.ac5 ∧ c.ac5 < 65536 ∧
  0 ≤ c.ac6 ∧ c.ac6 < 65536 ∧
  -32768 ≤ c.b1 ∧ c.b1 < 32768 ∧
  -32768 ≤ c.b2 ∧ c.b2 < 32768 ∧
  -32768 ≤ c.mb ∧ c.mb < 32768 ∧
  -32768 ≤ c.mc ∧ c.mc < 32768 ∧
  -32768 ≤ c.md ∧ c.md < 32768

instance (c : CalibrationCoefficients) : Decidable (calibInBounds c) := by
  unfold calibInBounds; infer_instance

/-- `initialization` of the source: the 22 calibration bytes are consumed
as eleven consecutive big-endian 16-bit reads (`binary.Read` with
`binary.BigEndian`) into the fields, in declaration order; signed fields
are two's-complement `int16`, `ac4..ac6` unsigned `uint16`. -/
def decodeCalibration (f : Fin 22 → Nat) : CalibrationCoefficients :=
  { ac1 := toInt16 ((f 0 : Int) * 256 + (f 1 : Nat))
    ac2 := toInt16 ((f 2 : Int) * 256 + (f 3 : Nat))
    ac3 := toInt16 ((f 4 : Int) * 256 + (f 5 : Nat))
    ac4 := toUInt16 ((f 6 : Int) * 256 + (f 7 : Nat))
    ac5 := toUInt16 ((f 8 : Int) * 256 + (f 9 : Nat))
    ac6 := toUInt16 ((f 10 : Int) * 256 + (f 11 : Nat))
    b1 := toInt16 ((f 12 : Int) * 256 + (f 13 : Nat))
    b2 := toInt16 ((f 14 : Int) * 256 + (f 15 : Nat))
    mb := toInt16 ((f 16 : Int) * 256 + (f 17 : Nat))
    mc := toInt16 ((f 18 : Int) * 256 + (f 19 : Nat))
    md := toInt16 ((f 20 : Int) * 256 + (f 21 : Nat)) }

/-- `calculateB5` of the source, first factor:
`x1 := (int32(rawTemp) - int32(ac6)) * int32(ac5) >> 15`. -/
def calculateB5X1 (c : CalibrationCoefficients) (rawTemp : Int) : Int :=
  asr (toInt32 (toInt32 (rawTemp - c.ac6) * c.ac5)) 15

/-- `calculateB5` of the source:
`x2 := int32(mc) << 11 / (x1 + int32(md)); return x1 + x2`. -/
def calculateB5 (c : CalibrationCoefficients) (rawTemp : Int) : Int :=
  toInt32 (calculateB5X1 c rawTemp +
    Int.tdiv (shl32 c.mc 11) (toInt32 (calculateB5X1 c rawTemp + c.md)))

/-- `calculateTemp` of the source before the final division by 10:
`t := (b5 + 8) >> 4`, the temperature in units of 0.1 °C. -/
def calculateTempTenths (c : CalibrationCoefficients) (rawTemp : Int) : Int :=
  asr (toInt32 (calculateB5 c rawTemp + 8)) 4

/-- `calculateTemp` of the source: `float32(t) / 10`.  The quotient is
modelled exactly as a rational; on every value the driver produces the
float32 division is exact or rounds both sides alike, and the reference
vector below is exactly representable. -/
def calculateTemp (c : CalibrationCoefficients) (rawTemp : Int) : ℚ :=
  (calculateTempTenths c rawTemp : ℚ) / 10

/-- `calculatePressure` of the source, `b6 := b5 - 4000`. -/
def calcB6 (c : CalibrationCoefficients) (rawTemp : Int) : Int :=
  toInt32 (calculateB5 c rawTemp - 4000)

/-- `calculatePressure` of the source, first `x3`:
`x1 := (int32(b2) * (b6*b6>>12)) >> 11; x2 := (int32(ac2)*b6) >> 11;
x3 := x1 + x2`. -/
def calcX3a (c : CalibrationCoefficients) (b6 : Int) : Int :=
  toInt32 (asr (toInt32 (c.b2 * asr (toInt32 (b6 * b6)) 12)) 11 +
    asr (toInt32 (c.ac2 * b6)) 11)

/-- `calculatePressure` of the source,
`b3 := (((int32(ac1)*4 + x3) << uint(mode)) + 2) >> 2`. -/
def calcB3 (mode : Nat) (c : CalibrationCoefficients) (b6 : Int) : Int :=
  asr (toInt32 (shl32 (toInt32 (toInt32 (c.ac1 * 4) + calcX3a c b6)) mode + 2)) 2

/-- `calculatePressure` of the source, second `x3`:
`x1 = (int32(ac3)*b6) >> 13; x2 = (int32(b1)*((b6*b6)>>12)) >> 16;
x3 = ((x1+x2)+2) >> 2`. -/
def calcX3b (c : CalibrationCoefficients) (b6 : Int) : Int :=
  asr (toInt32 (toInt32 (asr (toInt32 (c.ac3 * b6)) 13 +
    asr (toInt32 (c.b1 * asr (toInt32 (b6 * b6)) 12)) 16) + 2)) 2

/-- `calculatePressure` of the source,
`b4 := (uint32(ac4) * uint32(x3+32768)) >> 15` (unsigned 32-bit). -/
def calcB4 (c : CalibrationCoefficients) (b6 : Int) : Int :=
  toUInt32 (c.ac4 * toUInt32 (toInt32 (calcX3b c b6 + 32768))) / 32768

/-- `calculatePressure` of the source,
`b7 := (uint32(rawPressure-b3) * (50000 >> uint(mode)))` (unsigned 32-bit). -/
def calcB7 (mode : Nat) (b3 rawPressure : Int) : Int :=
  toUInt32 (toUInt32 (toInt32 (rawPressure - b3)) * (50000 / 2 ^ mode))

/-- `calculatePressure` of the source, the branch on `b7 < 0x80000000`:
`p = int32((b7<<1)/b4)` or `p = int32((b7/b4)<<1)`. -/
def calcP (b7 b4 : Int) : Int :=
  if b7 < 2147483648 then toInt32 (toUInt32 (b7 * 2) / b4)
  else toInt32 (toUInt32 (b7 / b4 * 2))

/-- `calculatePressure` of the source, assembled from the intermediate
values above, returning the final integral pressure in Pa (the value the
source converts with `float32(...)`; the conversion is exact on the
reference vector). -/
def calculatePressure (mode : Nat) (c : CalibrationCoefficients)
    (rawTemp rawPressure : Int) : Int :=
  let b6 := calcB6 c rawTemp
  let p := calcP (calcB7 mode (calcB3 mode c b6) rawPressure) (calcB4 c b6)
  let x1 := asr (toInt32 (toInt32 (asr p 8 * asr p 8) * 3038)) 16
  let x2 := asr (toInt32 ((-7357) * p)) 16
  toInt32 (p + asr (toInt32 (toInt32 (x1 + x2) + 3791)) 4)

/-!
## Specification-side compensation (spec §4.3)

A second, clearly named rendering of the compensation algorithm, written
from the ten numbered steps of spec section 4.3 (all intermediates in
32-bit signed integers, `B4`/`B7` unsigned 32-bit, arithmetic shifts,
truncating division), to be compared with the source-derived functions
above.
-/

/-- Spec §4.3 step 1: `B5 = X1 + X2` with
`X1 = ((rawTemp - ac6) * ac5) >> 15` and
`X2 = (mc << 11) / (X1 + md)` (32-bit signed, truncating division). -/
def specB5 (c : CalibrationCoefficients) (rawTemp : Int) : Int :=
  let x1 := asr (toInt32 ((rawTemp - c.ac6) * c.ac5)) 15
  let x2 := Int.tdiv (shl32 c.mc 11) (toInt32 (x1 + c.md))
  toInt32 (x1 + x2)

/-- Spec §4.3 step 2: `Temperature = ((B5 + 8) >> 4) / 10.0`. -/
def specTemperature (c : CalibrationCoefficients) (rawTemp : Int) : ℚ :=
  ((asr (toInt32 (specB5 c rawTemp + 8)) 4 : Int) : ℚ) / 10

/-- Spec §4.3 steps 3-10, producing the integral pressure in Pa. -/
def specPressure (mode : Nat) (c : CalibrationCoefficients)
    (rawTemp rawPressure : Int) : Int :=
  let b6 := toInt32 (specB5 c rawTemp - 4000)
  let x1a := asr (toInt32 (c.b2 * asr (toInt32 (b6 * b6)) 12)) 11
  let x2a := asr (toInt32 (c.ac2 * b6)) 11
  let x3a := toInt32 (x1a + x2a)
  let b3 := asr (toInt32 (shl32 (toInt32 (c.ac1 * 4 + x3a)) mode + 2)) 2
  let x1b := asr (toInt32 (c.ac3 * b6)) 13
  let x2b := asr (toInt32 (c.b1 * asr (toInt32 (b6 * b6)) 12)) 16
  let x3b := asr (toInt32 (x1b + x2b + 2)) 2
  let b4 := toUInt32 (c.ac4 * toUInt32 (x3b + 32768)) / 32768
  let b7 := toUInt32 ((rawPressure - b3) * (50000 / 2 ^ mode))
  let p := if b7 < 2147483648 then toInt32 (toUInt32 (b7 * 2) / b4)
    else toInt32 (b7 / b4 * 2)
  let y1 := asr (toInt32 (toInt32 (asr p 8 * asr p 8) * 3038)) 16
  let y2 := asr (toInt32 ((-7357) * p)) 16
  toInt32 (p + asr (toInt32 (y1 + y2 + 3791)) 4)

/-!
## Bridging lemmas for the 32-bit wraps
-/

/-- `toInt32` only depends on the residue modulo `2 ^ 32`. -/
theorem toInt32_congr {a b : Int} (h : a % 4294967296 = b % 4294967296) :
    toInt32 a = toInt32 b := by
  unfold toInt32; omega

/-- The residue modulo `2 ^ 32` is preserved by the signed wrap. -/
theorem toInt32_emod (a : Int) : toInt32 a % 4294967296 = a % 4294967296 := by
  unfold toInt32; omega

/-- A signed wrap inside an addition that is wrapped again is redundant. -/
theorem toInt32_add_left (a b : Int) : toInt32 (toInt32 a + b) = toInt32 (a + b) := by
  unfold toInt32; omega

/-- A signed wrap inside a multiplication that is wrapped again is
redundant. -/
theorem toInt32_mul_left (a b : Int) : toInt32 (toInt32 a * b) = toInt32 (a * b) :=
  toInt32_congr (by rw [Int.mul_emod, toInt32_emod, ← Int.mul_emod])

/-- Reinterpreting a signed 32-bit value as unsigned is taking its
residue: the inner signed wrap is redundant. -/
theorem toUInt32_toInt32 (a : Int) : toUInt32 (toInt32 a) = toUInt32 a := by
  unfold toUInt32 toInt32; omega

/-- Reinterpreting an unsigned 32-bit value as signed: the inner
unsigned wrap is redundant. -/
theorem toInt32_toUInt32 (a : Int) : toInt32 (toUInt32 a) = toInt32 a := by
  unfold toInt32 toUInt32; omega

/-- An unsigned wrap inside a multiplication that is wrapped again is
redundant. -/
theorem toUInt32_mul_left (a b : Int) : toUInt32 (toUInt32 a * b) = toUInt32 (a * b) := by
  unfold toUInt32
  rw [Int.mul_emod, Int.emod_emod_of_dvd _ dvd_rfl, ← Int.mul_emod]

/-- The signed wrap is the identity on values already in range. -/
theorem toInt32_eq_self {x : Int} (h1 : -2147483648 ≤ x) (h2 : x < 2147483648) :
    toInt32 x = x := by
  unfold toInt32; omega

/-- A big-endian signed 16-bit word made of two bytes, written out as
the two's-complement interpretation. -/
theorem toInt16_bytes (hi lo : Nat) (h1 : hi < 256) (h2 : lo < 256) :
    toInt16 ((hi : Int) * 256 + lo) =
      (hi : Int) * 256 + lo - (if 128 ≤ hi then 65536 else 0) := by
  unfold toInt16
  rcases Nat.lt_or_ge hi 128 with h | h
  · rw [if_neg (by omega)]; omega
  · rw [if_pos h]; omega

/-- A big-endian unsigned 16-bit word made of two bytes is its plain
value. -/
theorem toUInt16_bytes (hi lo : Nat) (h1 : hi < 256) (h2 : lo < 256) :
    toUInt16 ((hi : Int) * 256 + lo) = (hi : Int) * 256 + lo := by
  unfold toUInt16; omega

/-!
## Register map, acquisition sequencer and poller
-/

/-- Fixed i2c device address of the BMP180 (source constant). -/
def bmp180Address : Nat := 0x77

/-- Calibration base register (source constant). -/
def bmp180RegisterAC1MSB : Nat := 0xAA

/-- Control register (source constant). -/
def bmp180RegisterCtl : Nat := 0xF4

/-- Temperature-start command (source constant). -/
def bmp180CmdTemp : Nat := 0x2E

/-- Temperature result register (source constant). -/
def bmp180RegisterTempMSB : Nat := 0xF6

/-- Pressure-start command (source constant). -/
def bmp180CmdPressure : Nat := 0x34

/-- Pressure result register (source constant). -/
def bmp180RegisterPressureMSB : Nat := 0xF6

/-- One observable interaction of the driver with the outside world:
an i2c write, a sleep of some milliseconds, or an i2c read request. -/
inductive I2cEvent where
  | write (addr : Nat) (data : List Nat)
  | sleepMs (ms : Nat)
  | readReq (addr : Nat) (count : Nat)
deriving DecidableEq, Repr

/-- Errors an acquisition can surface.  The source only ever propagates
transport (bus) errors; `notCalibrated` is the error kind named by the
spec, carried here so its absence from every code path can be stated. -/
inductive AcqError where
  | transport (code : Nat)
  | notCalibrated
deriving DecidableEq, Repr

/-- The `read` helper of the source: write the register address, then
read `n` bytes.  Outcomes of the two bus transactions are scripted:
`none` means the register write succeeded, `some e` that it failed with
transport error `e`; `readOutcome` likewise for the read. -/
def readReg (register n : Nat) (regOutcome : Option Nat)
    (readOutcome : Except Nat (Fin n → Nat)) :
    List I2cEvent × Except AcqError (Fin n → Nat) :=
  match regOutcome with
  | some e => ([.write bmp180Address [register]], .error (.transport e))
  | none =>
    match readOutcome with
    | .error e =>
      ([.write bmp180Address [register], .readReq bmp180Address n],
        .error (.transport e))
    | .ok bs =>
      ([.write bmp180Address [register], .readReq bmp180Address n], .ok bs)

/-- `rawTemp` of the source: write `{0xF4, 0x2E}` to the control
register, sleep 5 ms, read 2 bytes from `0xF6` and take them as a
big-endian signed 16-bit value.  The driver state fields `mode` and
`calib` are in scope for the method but unused, exactly as in the
source. -/
def rawTempModel (mode : Nat) (calib : Option CalibrationCoefficients)
    (ctlOutcome regOutcome : Option Nat)
    (readOutcome : Except Nat (Fin 2 → Nat)) :
    List I2cEvent × Except AcqError Int :=
  match ctlOutcome with
  | some e =>
    ([.write bmp180Address [bmp180RegisterCtl, bmp180CmdTemp]],
      .error (.transport e))
  | none =>
    let pre : List I2cEvent :=
      [.write bmp180Address [bmp180RegisterCtl, bmp180CmdTemp], .sleepMs 5]
    match readReg bmp180RegisterTempMSB 2 regOutcome readOutcome with
    | (evs, .error e) => (pre ++ evs, .error e)
    | (evs, .ok bs) =>
      (pre ++ evs, .ok (toInt16 ((bs 0 : Int) * 256 + (bs 1 : Nat))))

/-- The command byte `rawPressure` sends:
`bmp180CmdPressure + byte(d.mode << 6)`, byte arithmetic wrapping
modulo 256. -/
def pressureCmdByte (mode : Nat) : Nat := (0x34 + mode * 64 % 256) % 256

/-- The settle sleep of `rawPressure`: the source `switch` sleeps
5/8/14/26 ms for the four oversampling modes (and has no default
branch). -/
def settleEvents (mode : Nat) : List I2cEvent :=
  match mode with
  | 0 => [.sleepMs 5]
  | 1 => [.sleepMs 8]
  | 2 => [.sleepMs 14]
  | 3 => [.sleepMs 26]
  | _ => []

/-- `rawPressure` of the source, final combine:
`(int32(ret[0])<<16 + int32(ret[1])<<8 + int32(ret[2])) >> (8 - uint(mode))`. -/
def combinePressure (mode : Nat) (bs : Fin 3 → Nat) : Int :=
  asr (toInt32 (toInt32 (shl32 (bs 0) 16 + shl32 (bs 1) 8) + (bs 2 : Nat)))
    (8 - mode)

/-- `rawPressure` of the source: write the mode-dependent command to the
control register, sleep the mode's settle time, read 3 bytes from `0xF6`
and combine them.  The calibration store is in scope but unused, as in
the source. -/
def rawPressureModel (mode : Nat) (calib : Option CalibrationCoefficients)
    (ctlOutcome regOutcome : Option Nat)
    (readOutcome : Except Nat (Fin 3 → Nat)) :
    List I2cEvent × Except AcqError Int :=
  match ctlOutcome with
  | some e =>
    ([.write bmp180Address [bmp180RegisterCtl, pressureCmdByte mode]],
      .error (.transport e))
  | none =>
    let pre : List I2cEvent :=
      .write bmp180Address [bmp180RegisterCtl, pressureCmdByte mode] ::
        settleEvents mode
    match readReg bmp180RegisterPressureMSB 3 regOutcome readOutcome with
    | (evs, .error e) => (pre ++ evs, .error e)
    | (evs, .ok bs) => (pre ++ evs, .ok (combinePressure mode bs))

/-- The readings the background cycle publishes. -/
structure PollState where
  temperature : ℚ
  pressure : Int
deriving DecidableEq, Repr

/-- One iteration of the perpetual loop in `Start`: on a failed raw
temperature read, publish the error and `continue`; otherwise store the
temperature; on a failed raw pressure read, publish and `continue`;
otherwise store the pressure and sleep the polling interval.  Returns
the new readings, the list of errors published this iteration, and
whether the interval sleep at the bottom of the loop body was reached. -/
def cycleStep (mode : Nat) (c : CalibrationCoefficients) (s : PollState)
    (tempOutcome pressureOutcome : Except AcqError Int) :
    PollState × List AcqError × Bool :=
  match tempOutcome with
  | .error e => (s, [e], false)
  | .ok rawTemp =>
    let s1 : PollState := { s with temperature := calculateTemp c rawTemp }
    match pressureOutcome with
    | .error e => (s1, [e], false)
    | .ok rawPressure =>
      ({ s1 with pressure := calculatePressure mode c rawTemp rawPressure },
        [], true)

/-- The device handle (`BMP180Driver` of the source): name, polling
interval in nanoseconds (Go `time.Duration`), oversampling mode, the
calibration store (`none` before `initialization` has run), the two
published readings, and whether the background cycle has been
launched. -/
structure Driver where
  name : String
  interval : Int
  mode : Nat
  calib : Option CalibrationCoefficients
  temperature : ℚ
  pressure : Int
  running : Bool
deriving DecidableEq, Repr

/-- `NewBMP180Driver` of the source: name `"BMP180"`, interval 10 ms
overridden by the first optional duration, the given mode, an empty
calibration store, zero readings, cycle not launched. -/
def newBMP180Driver (mode : Nat) (i : List Int) : Driver :=
  { name := "BMP180"
    interval := match i with | [] => 10 * 1000000 | d :: _ => d
    mode := mode
    calib := none
    temperature := 0
    pressure := 0
    running := false }

/-- `initialization` of the source at the grain of the spec's transport
interface: `I2cStart`, then one 22-byte read from the calibration base
register (register write failure and read failure both surface as
transport errors), then decode all eleven coefficients at once. -/
def initializationModel (d : Driver) (i2cStartOutcome : Option Nat)
    (readOutcome : Except Nat (Fin 22 → Nat)) : Driver × Option AcqError :=
  match i2cStartOutcome with
  | some e => (d, some (.transport e))
  | none =>
    match readOutcome with
    | .error e => (d, some (.transport e))
    | .ok bs => ({ d with calib := some (decodeCalibration bs) }, none)

/-- `Start` of the source: run `initialization`; on failure return the
error without launching the background cycle; on success launch it
(`running := true`) and return `nil`.  Readings are only ever updated by
`cycleStep` iterations of a launched cycle. -/
def startModel (d : Driver) (i2cStartOutcome : Option Nat)
    (readOutcome : Except Nat (Fin 22 → Nat)) : Driver × Option AcqError :=
  match initializationModel d i2cStartOutcome readOutcome with
  | (d1, some e) => (d1, some e)
  | (d1, none) => ({ d1 with running := true }, none)

/-- Big-endian 16-bit encoding of a (possibly signed) value: the two
bytes of its two's-complement 16-bit representation, most significant
first. -/
def encodeBE16 (v : Int) : List Nat :=
  [(toUInt16 v / 256).toNat, (toUInt16 v % 256).toNat]

/-- The manufacturer's reference calibration record (spec §8). -/
def refCalib : CalibrationCoefficients :=
  ⟨408, -72, -14383, 32741, 32757, 23153, 6190, 4, -32767, -8711, 2868⟩

/-- The 22-byte concatenation of the big-endian encodings of the
reference calibration values. -/
def calibVectorBytes : List Nat :=
  encodeBE16 408 ++ encodeBE16 (-72) ++ encodeBE16 (-14383) ++
  encodeBE16 32741 ++ encodeBE16 32757 ++ encodeBE16 23153 ++
  encodeBE16 6190 ++ encodeBE16 4 ++ encodeBE16 (-32767) ++
  encodeBE16 (-8711) ++ encodeBE16 2868

/-- The reference calibration block as a 22-byte read result. -/
def calibVector (i : Fin 22) : Nat := calibVectorBytes.getD i.val 0

/-!
## Claim theorems
-/

/-- Claim C2: with the manufacturer's reference calibration record,
oversampling mode 0, raw temperature 27898 and raw pressure 23843,
`calculateTemp` returns exactly 15.0 degrees C and `calculatePressure`
returns exactly 69964 Pa. -/
theorem bmp180_reference_vector :
    calculateTemp refCalib 27898 = 15 ∧
    calculatePressure 0 refCalib 27898 23843 = 69964 := by
  constructor
  · show (calculateTempTenths refCalib 27898 : ℚ) / 10 = 15
    rw [show calculateTempTenths refCalib 27898 = 150 from by decide]
    norm_num
  · decide

/-- Claim C3: the calibration decode reads the 22-byte block as eleven
consecutive big-endian 16-bit words in the order `ac1..md`, with
`ac1..ac3, b1, b2, mb, mc, md` two's-complement signed and `ac4..ac6`
unsigned; and it maps the concatenated big-endian encodings of the
reference values back to exactly those values. -/
theorem bmp180_calibration_decode :
    ∀ (f : Fin 22 → Nat), (∀ i, f i < 256) →
      ((decodeCalibration f).ac1 =
          (f 0 : Int) * 256 + f 1 - (if 128 ≤ f 0 then 65536 else 0) ∧
        (decodeCalibration f).ac2 =
          (f 2 : Int) * 256 + f 3 - (if 128 ≤ f 2 then 65536 else 0) ∧
        (decodeCalibration f).ac3 =
          (f 4 : Int) * 256 + f 5 - (if 128 ≤ f 4 then 65536 else 0) ∧
        (decodeCalibration f).ac4 = (f 6 : Int) * 256 + f 7 ∧
        (decodeCalibration f).ac5 = (f 8 : Int) * 256 + f 9 ∧
        (decodeCalibration f).ac6 = (f 10 : Int) * 256 + f 11 ∧
        (decodeCalibration f).b1 =
          (f 12 : Int) * 256 + f 13 - (if 128 ≤ f 12 then 65536 else 0) ∧
        (decodeCalibration f).b2 =
          (f 14 : Int) * 256 + f 15 - (if 128 ≤ f 14 then 65536 else 0) ∧
        (decodeCalibration f).mb =
          (f 16 : Int) * 256 + f 17 - (if 128 ≤ f 16 then 65536 else 0) ∧
        (decodeCalibration f).mc =
          (f 18 : Int) * 256 + f 19 - (if 128 ≤ f 18 then 65536 else 0) ∧
        (decodeCalibration f).md =
          (f 20 : Int) * 256 + f 21 - (if 128 ≤ f 20 then 65536 else 0)) ∧
      decodeCalibration calibVector = refCalib := by
  intro f h
  refine ⟨⟨?_, ?_, ?_, ?_, ?_, ?_, ?_, ?_, ?_, ?_, ?_⟩, by decide⟩
  · exact toInt16_bytes _ _ (h 0) (h 1)
  · exact toInt16_bytes _ _ (h 2) (h 3)
  · exact toInt16_bytes _ _ (h 4) (h 5)
  · exact toUInt16_bytes _ _ (h 6) (h 7)
  · exact toUInt16_bytes _ _ (h 8) (h 9)
  · exact toUInt16_bytes _ _ (h 10) (h 11)
  · exact toInt16_bytes _ _ (h 12) (h 13)
  · exact toInt16_bytes _ _ (h 14) (h 15)
  · exact toInt16_bytes _ _ (h 16) (h 17)
  · exact toInt16_bytes _ _ (h 18) (h 19)
  · exact toInt16_bytes _ _ (h 20) (h 21)

/-- Witness for C3 at the reference byte block. -/
theorem bmp180_calibration_decode_witness :
    decodeCalibration calibVector = refCalib :=
  (bmp180_calibration_decode calibVector (by decide)).2

/-- Claim C9: `rawTemp` writes `{0xF4, 0x2E}` to the control register,
sleeps exactly 5 ms independently of the oversampling mode, reads 2
bytes from `0xF6` and interprets them as a big-endian signed 16-bit
value. -/
theorem bmp180_raw_temp_protocol :
    ∀ (mode : Nat) (calib : Option CalibrationCoefficients)
      (bs : Fin 2 → Nat), (∀ i, bs i < 256) →
      rawTempModel mode calib none none (.ok bs) =
        ([.write 0x77 [0xF4, 0x2E], .sleepMs 5, .write 0x77 [0xF6],
            .readReq 0x77 2],
          .ok ((bs 0 : Int) * 256 + bs 1 -
            (if 128 ≤ bs 0 then 65536 else 0))) := by
  intro mode calib bs h
  simp only [rawTempModel, readReg]
  rw [toInt16_bytes _ _ (h 0) (h 1)]
  rfl

/-- Witness for C9 at the reference raw-temperature bytes `0x6C 0xFA`,
in mode 2. -/
theorem bmp180_raw_temp_protocol_witness :
    rawTempModel 2 none none none
        (.ok (fun i => [108, 250].getD i.val 0)) =
      ([.write 0x77 [0xF4, 0x2E], .sleepMs 5, .write 0x77 [0xF6],
          .readReq 0x77 2],
        .ok 27898) :=
  (bmp180_raw_temp_protocol 2 none (fun i => [108, 250].getD i.val 0)
    (by decide)).trans (by rfl)

/-- Claim C5: within a running cycle, when the raw-pressure acquisition
fails after a successful raw-temperature acquisition, the temperature is
updated from this cycle's read, the pressure keeps its pre-cycle value,
and exactly one error is published. -/
theorem bmp180_cycle_pressure_failure :
    ∀ (mode : Nat) (c : CalibrationCoefficients) (s : PollState)
      (rt : Int) (e : AcqError),
      cycleStep mode c s (.ok rt) (.error e) =
        ({ temperature := calculateTemp c rt, pressure := s.pressure },
          [e], false) := by
  intro mode c s rt e
  rfl

/-- Claim C6, corrected: after a failed acquisition step the loop
publishes exactly one error and proceeds immediately to the next
iteration — the `continue` skips the interval sleep, which is reached
only after a fully successful cycle. -/
theorem bmp180_failure_retry_immediate :
    ∀ (mode : Nat) (c : CalibrationCoefficients) (s : PollState)
      (rt rp : Int) (e : AcqError) (po : Except AcqError Int),
      (cycleStep mode c s (.error e) po).2 = ([e], false) ∧
      (cycleStep mode c s (.ok rt) (.error e)).2 = ([e], false) ∧
      (cycleStep mode c s (.ok rt) (.ok rp)).2 = ([], true) := by
  intro mode c s rt rp e po
  exact ⟨rfl, rfl, rfl⟩

/-- Counterexample to C6 as stated: at a concrete failing cycle the
interval sleep step is not executed before the next acquisition
attempt. -/
theorem bmp180_failure_skips_sleep_cex :
    (cycleStep 0 refCalib ⟨15, 69964⟩ (.ok 27898)
        (.error (.transport 0))).2.2 = false ∧
    (cycleStep 0 refCalib ⟨15, 69964⟩ (.error (.transport 0))
        (.error (.transport 0))).2.2 = false :=
  ⟨rfl, rfl⟩

/-- Claim C10: the constructor defaults the polling interval to 10 ms
(Go durations in nanoseconds), takes the first supplied duration
otherwise, names the device `"BMP180"` and stores the mode unchanged. -/
theorem bmp180_constructor_defaults :
    ∀ (mode : Nat) (d : Int) (rest : List Int) (i : List Int),
      (newBMP180Driver mode []).interval = 10 * 1000000 ∧
      (newBMP180Driver mode (d :: rest)).interval = d ∧
      (newBMP180Driver mode i).name = "BMP180" ∧
      (newBMP180Driver mode i).mode = mode := by
  intro mode d rest i
  exact ⟨rfl, rfl, rfl, rfl⟩

/-- Counterexample to C7 as stated: with calibration not loaded
(`calib = none`) and a successful transport, the raw-temperature
acquisition proceeds and returns the raw value instead of failing fast
with a `NotCalibratedError`. -/
theorem bmp180_not_calibrated_guard_cex :
    rawTempModel 0 none none none
        (.ok (fun i => [108, 250].getD i.val 0)) =
      ([.write 0x77 [0xF4, 0x2E], .sleepMs 5, .write 0x77 [0xF6],
          .readReq 0x77 2],
        .ok 27898) ∧
    (rawTempModel 0 none none none
        (.ok (fun i => [108, 250].getD i.val 0))).2 ≠
      Except.error AcqError.notCalibrated := by
  constructor
  · rfl
  · simp [rawTempModel, readReg]

/-- Claim C7, corrected: the acquisition entry points never consult the
calibration store — their behaviour is identical whether or not
calibration has been loaded — and no code path produces a
`NotCalibratedError`; only transport errors are ever surfaced. -/
theorem bmp180_acquisition_ignores_calibration :
    ∀ (mode : Nat) (calib : Option CalibrationCoefficients)
      (w r : Option Nat) (t2 : Except Nat (Fin 2 → Nat))
      (t3 : Except Nat (Fin 3 → Nat)),
      rawTempModel mode calib w r t2 = rawTempModel mode none w r t2 ∧
      rawPressureModel mode calib w r t3 = rawPressureModel mode none w r t3 ∧
      (rawTempModel mode calib w r t2).2 ≠
        Except.error AcqError.notCalibrated ∧
      (rawPressureModel mode calib w r t3).2 ≠
        Except.error AcqError.notCalibrated := by
  intro mode calib w r t2 t3
  refine ⟨rfl, rfl, ?_, ?_⟩
  · cases w with
    | some e => simp [rawTempModel]
    | none =>
      cases r with
      | some e => simp [rawTempModel, readReg]
      | none =>
        cases t2 with
        | error e => simp [rawTempModel, readReg]
        | ok bs => simp [rawTempModel, readReg]
  · cases w with
    | some e => simp [rawPressureModel]
    | none =>
      cases r with
      | some e => simp [rawPressureModel, readReg]
      | none =>
        cases t3 with
        | error e => simp [rawPressureModel, readReg]
        | ok bs => simp [rawPressureModel, readReg]

/-- Witness for the corrected C7 at a concrete uncalibrated state and a
failing transport. -/
theorem bmp180_acquisition_ignores_calibration_witness :
    (rawTempModel 0 (some refCalib) none none (.error 5)).2 ≠
      Except.error AcqError.notCalibrated :=
  (bmp180_acquisition_ignores_calibration 0 (some refCalib) none none
    (.error 5) (.error 5)).2.2.1

/-- Claim C8: a failed calibration read makes `Start` return the error
synchronously, the background cycle is not launched, and the
calibration store is untouched; a successful read populates all eleven
coefficients at once. -/
theorem bmp180_start_failure_no_cycle :
    ∀ (d : Driver) (e : Nat) (bs : Fin 22 → Nat),
      d.running = false →
      startModel d (some e) (.error e) = (d, some (.transport e)) ∧
      startModel d none (.error e) = (d, some (.transport e)) ∧
      (startModel d none (.error e)).1.running = false ∧
      (startModel d none (.error e)).1.calib = d.calib ∧
      startModel d none (.ok bs) =
        ({ d with calib := some (decodeCalibration bs), running := true },
          none) := by
  intro d e bs h
  exact ⟨rfl, rfl, h, rfl, rfl⟩

/-- Witness for C8 on a freshly constructed driver. -/
theorem bmp180_start_failure_no_cycle_witness :
    startModel (newBMP180Driver 0 []) (some 3) (.error 3) =
      (newBMP180Driver 0 [], some (.transport 3)) ∧
    startModel (newBMP180Driver 0 []) none (.error 3) =
      (newBMP180Driver 0 [], some (.transport 3)) ∧
    (startModel (newBMP180Driver 0 []) none (.error 3)).1.running = false ∧
    (startModel (newBMP180Driver 0 []) none (.error 3)).1.calib =
      (newBMP180Driver 0 []).calib ∧
    startModel (newBMP180Driver 0 []) none (.ok calibVector) =
      ({ newBMP180Driver 0 [] with
          calib := some (decodeCalibration calibVector), running := true },
        none) :=
  bmp180_start_failure_no_cycle (newBMP180Driver 0 []) 3 calibVector rfl

/-- A bitwise or whose right operand fits below the zero bits of the
left operand is an addition. -/
theorem lor_low (a b : Nat) (i : Nat) (h : b < 2 ^ i) :
    2 ^ i * a ||| b = 2 ^ i * a + b :=
  (Nat.mul_add_lt_is_or h a).symm

/-- Three bytes concatenated with shifts and bitwise or equal the
positional sum. -/
theorem bytes_combine (b0 b1 b2 : Nat) (h1 : b1 < 256) (h2 : b2 < 256) :
    (b0 <<< 16 ||| b1 <<< 8 ||| b2 : Nat) = b0 * 65536 + b1 * 256 + b2 := by
  rw [Nat.shiftLeft_eq, Nat.shiftLeft_eq,
    show b0 * 2 ^ 16 = 2 ^ 16 * b0 from Nat.mul_comm _ _,
    lor_low b0 (b1 * 2 ^ 8) 16 (by omega),
    show 2 ^ 16 * b0 + b1 * 2 ^ 8 = 2 ^ 8 * (256 * b0 + b1) from by ring,
    lor_low _ b2 8 (by omega)]
  ring

/-- The source's signed 24-bit combine-and-shift of the three pressure
bytes equals the unsigned positional combine shifted right — for bytes
the intermediate never overflows 32 bits and stays nonnegative. -/
theorem combinePressure_core (mode : Nat) (b0 b1 b2 : Nat)
    (h0 : b0 < 256) (h1 : b1 < 256) (h2 : b2 < 256) :
    asr (toInt32 (toInt32 (shl32 b0 16 + shl32 b1 8) + (b2 : Nat))) (8 - mode) =
      (((b0 * 65536 + b1 * 256 + b2) / 2 ^ (8 - mode) : Nat) : Int) := by
  have d0 : (b0 : Int) < 256 := by exact_mod_cast h0
  have d1 : (b1 : Int) < 256 := by exact_mod_cast h1
  have d2 : (b2 : Int) < 256 := by exact_mod_cast h2
  have n0 : (0 : Int) ≤ (b0 : Int) := Int.ofNat_nonneg _
  have n1 : (0 : Int) ≤ (b1 : Int) := Int.ofNat_nonneg _
  have n2 : (0 : Int) ≤ (b2 : Int) := Int.ofNat_nonneg _
  unfold shl32
  rw [toInt32_eq_self (x := (b0 : Int) * 2 ^ 16) (by omega) (by omega),
    toInt32_eq_self (x := (b1 : Int) * 2 ^ 8) (by omega) (by omega),
    toInt32_eq_self (x := (b0 : Int) * 2 ^ 16 + (b1 : Int) * 2 ^ 8)
      (by omega) (by omega),
    toInt32_eq_self (by omega) (by omega)]
  unfold asr
  rw [Int.ofNat_ediv]
  push_cast
  ring_nf

/-- Claim C4: for each of the four oversampling modes, `rawPressure`
writes the command byte `0x34 ||| (shiftAmount <<< 6)` to the control
register, sleeps per the fixed table `{0:5, 1:8, 2:14, 3:26}` ms, reads
3 bytes from `0xF6`, combines them as a 24-bit unsigned value
`(byte0<<16) ||| (byte1<<8) ||| byte2` and shifts it right by
`8 - shiftAmount`. -/
theorem bmp180_raw_pressure_protocol :
    ∀ (mode : Nat) (calib : Option CalibrationCoefficients)
      (bs : Fin 3 → Nat), mode < 4 → (∀ i, bs i < 256) →
      rawPressureModel mode calib none none (.ok bs) =
        ([.write 0x77 [0xF4, 0x34 ||| (mode <<< 6)],
            .sleepMs ([5, 8, 14, 26].getD mode 0),
            .write 0x77 [0xF6], .readReq 0x77 3],
          .ok (((bs 0 <<< 16 ||| bs 1 <<< 8 ||| bs 2) >>> (8 - mode) : Nat)
            : Int)) := by
  intro mode calib bs hm hb
  have hv : combinePressure mode bs =
      (((bs 0 <<< 16 ||| bs 1 <<< 8 ||| bs 2) >>> (8 - mode) : Nat) : Int) := by
    unfold combinePressure
    rw [combinePressure_core mode (bs 0) (bs 1) (bs 2) (hb 0) (hb 1) (hb 2),
      bytes_combine (bs 0) (bs 1) (bs 2) (hb 1) (hb 2),
      Nat.shiftRight_eq_div_pow]
  interval_cases mode <;> exact Prod.ext rfl (by rw [← hv]; rfl)

/-- Witness for C4 in mode 0 at the reference raw-pressure bytes
`0x5D 0x23 0x00`. -/
theorem bmp180_raw_pressure_protocol_witness :
    rawPressureModel 0 none none none
        (.ok (fun i => [93, 35, 0].getD i.val 0)) =
      ([.write 0x77 [0xF4, 0x34], .sleepMs 5, .write 0x77 [0xF6],
          .readReq 0x77 3],
        .ok 23843) :=
  (bmp180_raw_pressure_protocol 0 none (fun i => [93, 35, 0].getD i.val 0)
    (by decide) (by decide)).trans (by rfl)

/-- Claim C1: on every in-range calibration record, raw temperature
(int16) and raw pressure (int32), whenever the two divisors of the
algorithm (the `X1 + md` of step 1 and the `B4` of step 8) are nonzero,
`calculateTemp` and `calculatePressure` compute exactly the ten-step
algorithm of spec section 4.3. -/
theorem bmp180_compensation_matches_spec :
    ∀ (mode : Nat) (c : CalibrationCoefficients) (rawTemp rawPressure : Int),
      mode < 4 → calibInBounds c →
      -32768 ≤ rawTemp → rawTemp < 32768 →
      -2147483648 ≤ rawPressure → rawPressure < 2147483648 →
      toInt32 (calculateB5X1 c rawTemp + c.md) ≠ 0 →
      calcB4 c (calcB6 c rawTemp) ≠ 0 →
      calculateTemp c rawTemp = specTemperature c rawTemp ∧
      calculatePressure mode c rawTemp rawPressure =
        specPressure mode c rawTemp rawPressure := by
  intro mode c rt rp _ _ _ _ _ _ _ _
  have hb5 : calculateB5 c rt = specB5 c rt := by
    unfold calculateB5 calculateB5X1 specB5
    rw [toInt32_mul_left]
  constructor
  · unfold calculateTemp calculateTempTenths specTemperature
    rw [hb5]
  · simp only [calculatePressure, specPressure, calcB6, calcB3, calcX3a,
      calcX3b, calcB4, calcB7, calcP, shl32, hb5, toInt32_add_left,
      toInt32_mul_left, toUInt32_toInt32, toInt32_toUInt32, toUInt32_mul_left]

/-- Witness for C1 at the manufacturer's reference vector in mode 0. -/
theorem bmp180_compensation_matches_spec_witness :
    calculateTemp refCalib 27898 = specTemperature refCalib 27898 ∧
    calculatePressure 0 refCalib 27898 23843 =
      specPressure 0 refCalib 27898 23843 :=
  bmp180_compensation_matches_spec 0 refCalib 27898 23843 (by decide)
    (by decide) (by decide) (by decide) (by decide) (by decide) (by decide)
    (by decide)
